import Mathlib

/-! # FlowchartViewer: viewport, render coordination and request flow

A shallow embedding of `src/components/flowchart/FlowchartViewer.js`.

Conventions of the embedding:

* JavaScript numbers are modelled by rationals. The values that reach the
  handlers (pointer coordinates, wheel distances, the literals 0.3, 3, 0.1 and
  0.002) are finite, and `Math.min` / `Math.max` on finite numbers are the
  order-theoretic `min` / `max`; rounding of `+` and `*` is abstracted.
* React state (`useState`) is a record; a handler is a function from the
  record observed by the handler to the record after its setters have run.
  Handlers are re-registered by the effect on
  `[isPanning, position, startPan, scale]`, so each handler observes the
  current values.
* Suspension points (`requestAnimationFrame`, `await`) are explicit: the part
  of a function before the suspension and the part after it are separate
  transitions of a step function, and what is pending is part of the state.
-/

namespace FlowchartViewer

/-! ## Viewport state -/

/-- A pair of coordinates, the shape of `position` and `startPan`. -/
structure Point where
  x : ℚ
  y : ℚ
  deriving DecidableEq, Repr

/-- The four `useState` cells of the viewport: `isPanning`, `position`,
`startPan` and `scale`. -/
structure ViewState where
  isPanning : Bool
  position : Point
  startPan : Point
  scale : ℚ
  deriving DecidableEq, Repr

/-- The values passed to `useState` at mount: `false`, `(0,0)`, `(0,0)`, `1`. -/
def initialView : ViewState :=
  { isPanning := false, position := ⟨0, 0⟩, startPan := ⟨0, 0⟩, scale := 1 }

/-- What `handleMouseDown` and `handleMouseMove` read from a mouse event:
whether `e.target.closest('.node')` and `e.target.closest('.toolbar')` are
non-null, `e.button`, `e.clientX` and `e.clientY`. -/
structure MouseEvent where
  closestNode : Bool
  closestToolbar : Bool
  button : Nat
  clientX : ℚ
  clientY : ℚ
  deriving DecidableEq, Repr

/-- What `handleWheel` reads from a wheel event: `e.ctrlKey` and `e.deltaY`. -/
structure WheelEvent where
  ctrlKey : Bool
  deltaY : ℚ
  deriving DecidableEq, Repr

/-- The expression `Math.min(Math.max(0.3, v), 3)` that both zoom paths apply. -/
def clampScale (v : ℚ) : ℚ :=
  min (max (3 / 10) v) 3

/-- Toolbar `onZoom`: `setScale(prev => Math.min(Math.max(0.3, prev + delta), 3))`. -/
def onZoom (s : ViewState) (delta : ℚ) : ViewState :=
  { s with scale := min (max (3 / 10) (s.scale + delta)) 3 }

/-- Toolbar `onReset`: `setScale(1); setPosition({ x: 0, y: 0 })`. -/
def onReset (s : ViewState) : ViewState :=
  { s with scale := 1, position := ⟨0, 0⟩ }

/-- The handler `handleMouseDown`: returns at once when the target lies in a
`.node` or a `.toolbar`; otherwise, for the primary button, sets `isPanning`
and records `startPan = client - position`. -/
def handleMouseDown (s : ViewState) (e : MouseEvent) : ViewState :=
  if e.closestNode || e.closestToolbar then s
  else if e.button = 0 then
    { s with
      isPanning := true
      startPan := ⟨e.clientX - s.position.x, e.clientY - s.position.y⟩ }
  else s

/-- The synchronous part of `handleMouseMove`: while panning it hands a callback
to `requestAnimationFrame`; the callback is represented by the position it will
pass to `setPosition`, computed from the event and the `startPan` captured by
the handler. When not panning nothing is scheduled. `handleMouseMove` calls no
setter itself. -/
def handleMouseMove (s : ViewState) (e : MouseEvent) : Option Point :=
  if s.isPanning then
    some ⟨e.clientX - s.startPan.x, e.clientY - s.startPan.y⟩
  else none

/-- The animation-frame callback scheduled by `handleMouseMove`:
`setPosition({ x: ..., y: ... })`. -/
def runFrameCallback (s : ViewState) (p : Point) : ViewState :=
  { s with position := p }

/-- The handler `handleMouseUp`: `setIsPanning(false)`. -/
def handleMouseUp (s : ViewState) : ViewState :=
  { s with isPanning := false }

/-- The handler `handleWheel`: only with `ctrlKey` held,
`delta = -e.deltaY * 0.002` and
`setScale(Math.min(Math.max(0.3, scale + delta), 3))`. -/
def handleWheel (s : ViewState) (e : WheelEvent) : ViewState :=
  if e.ctrlKey then
    { s with scale := min (max (3 / 10) (s.scale + -e.deltaY * (2 / 1000))) 3 }
  else s

/-! ## The viewport as a machine -/

/-- The viewport cells together with the animation-frame callbacks that
`handleMouseMove` has scheduled and the browser has not run yet. -/
structure Viewer where
  view : ViewState
  pending : List Point
  deriving DecidableEq, Repr

/-- The viewer at mount. -/
def initialViewer : Viewer :=
  { view := initialView, pending := [] }

/-- The operations on the viewport: the two toolbar handlers, the four DOM
handlers, and the browser running the scheduled animation-frame callbacks. -/
inductive ViewOp where
  | zoomBy (delta : ℚ)
  | wheel (e : WheelEvent)
  | beginPan (e : MouseEvent)
  | updatePan (e : MouseEvent)
  | endPan
  | reset
  | frame
  deriving DecidableEq, Repr

/-- One operation. `frame` runs the scheduled callbacks in the order in which
they were scheduled. -/
def stepView (v : Viewer) : ViewOp → Viewer
  | .zoomBy delta => { v with view := onZoom v.view delta }
  | .wheel e => { v with view := handleWheel v.view e }
  | .beginPan e => { v with view := handleMouseDown v.view e }
  | .updatePan e =>
    match handleMouseMove v.view e with
    | some p => { v with pending := v.pending ++ [p] }
    | none => v
  | .endPan => { v with view := handleMouseUp v.view }
  | .reset => { v with view := onReset v.view }
  | .frame => { view := v.pending.foldl runFrameCallback v.view, pending := [] }

/-- A sequence of operations, applied from left to right. -/
def runView (v : Viewer) (ops : List ViewOp) : Viewer :=
  ops.foldl stepView v

/-- The range `[0.3, 3]` of the scale. -/
def ScaleInRange (s : ViewState) : Prop :=
  3 / 10 ≤ s.scale ∧ s.scale ≤ 3

/-- The clamp of the specification, `clamp(x, lo, hi)`: `lo` below the range,
`hi` above it, `x` itself inside. Written from the words of the specification,
to be compared with the `Math.min(Math.max(lo, x), hi)` of the source. -/
def specClamp (x lo hi : ℚ) : ℚ :=
  if x < lo then lo else if hi < x then hi else x

/-! ## Sanitization of the diagram source -/

/-- The backtick character (U+0060). -/
def backtick : Char := Char.ofNat 96

/-- The three backticks of a fence marker. -/
def fence : List Char := [backtick, backtick, backtick]

/-- The characters of a fence marker followed by the word mermaid. -/
def fenceMermaid : List Char := fence ++ ['m', 'e', 'r', 'm', 'a', 'i', 'd']

/-- Length of the match of the regular expression ```` /```mermaid\n?/ ```` anchored
at the head of the text, 0 when it does not match there: the optional newline is
greedy, so it belongs to the match whenever it is present. -/
def matchFenceMermaid (cs : List Char) : Nat :=
  if fenceMermaid.isPrefixOf cs then
    if (cs.drop fenceMermaid.length).head? = some '\n' then fenceMermaid.length + 1
    else fenceMermaid.length
  else 0

/-- Length of the match of the regular expression ```` /```/ ```` anchored at the head
of the text, 0 when it does not match there. -/
def matchFence (cs : List Char) : Nat :=
  if fence.isPrefixOf cs then fence.length else 0

/-- `String.prototype.replace` with a global regular expression and the empty
replacement: the text is scanned from the left; where the expression matches,
the match is dropped and scanning resumes right after it; elsewhere the
character is kept. The first argument gives the length of the match anchored at
a position, the second counts the characters of the current match still to be
dropped. -/
def removeMatches (matchLen : List Char → Nat) : Nat → List Char → List Char
  | _, [] => []
  | skip + 1, _ :: cs => removeMatches matchLen skip cs
  | 0, c :: cs =>
    match matchLen (c :: cs) with
    | 0 => c :: removeMatches matchLen 0 cs
    | n + 1 => removeMatches matchLen n cs

/-- The white space and line terminators that `String.prototype.trim` removes. -/
def isJsWhitespace (c : Char) : Bool :=
  let n := c.toNat
  n = 9 || n = 10 || n = 11 || n = 12 || n = 13 || n = 32 || n = 160 || n = 5760 ||
    (8192 ≤ n && n ≤ 8202) || n = 8232 || n = 8233 || n = 8239 || n = 8287 ||
    n = 12288 || n = 65279

/-- `String.prototype.trim` on a list of characters. -/
def jsTrim (cs : List Char) : List Char :=
  ((cs.dropWhile isJsWhitespace).reverse.dropWhile isJsWhitespace).reverse

/-- The `cleanCode` of `initializeMermaid`:
```` code.replace(/```mermaid\n?/g, '').replace(/```/g, '').trim() ````.
A string is its list of Unicode code points; the two patterns and the white
space of `trim` lie in the Basic Multilingual Plane, where matching on code
points and matching on UTF-16 code units agree. -/
def cleanCode (code : String) : String :=
  ⟨jsTrim (removeMatches matchFence 0 (removeMatches matchFenceMermaid 0 code.data))⟩

/-! ## Render coordination -/

/-- A render pass suspended at `await mermaid.render(id, cleanCode)`: the
`Date.now()` of the element id and the cleaned source. -/
structure RenderPass where
  token : Nat
  source : String
  deriving DecidableEq, Repr

/-- The state that the render effect works on: the markup last assigned to
`wrapper.innerHTML`, the passes awaiting `mermaid.render`, and the messages of
the `toast.error` calls made so far. -/
structure RenderState where
  surface : String
  inflight : List RenderPass
  toasts : List String
  deriving DecidableEq, Repr

/-- Nothing mounted, nothing in flight. -/
def initialRender : RenderState :=
  { surface := "", inflight := [], toasts := [] }

/-- The events of render coordination. `trigger` is a run of the effect on
`[code, config, lastUpdate]` with the current `code`, the value of `Date.now()`
and whether `querySelector('.flowchart-wrapper')` found the wrapper. `settle i`
is the completion of the `mermaid.render` call of the `i`-th pass in flight
(counted from 0, oldest first). -/
inductive RenderEvent where
  | trigger (code : String) (now : Nat) (wrapperFound : Bool)
  | settle (i : Nat)
  deriving DecidableEq, Repr

/-- The part of `initializeMermaid` up to the `await`: nothing for an empty
`code` or a missing wrapper; otherwise the wrapper is emptied and
`mermaid.render` is called on the cleaned source. The theme lookup and
`mermaid.initialize` configure the library and write neither the wrapper nor a
toast; their effect on the markup belongs to the `render` parameter of
`stepRender`. -/
def initializeMermaidStart (st : RenderState) (code : String) (now : Nat)
    (wrapperFound : Bool) : RenderState :=
  if code = "" then st
  else if !wrapperFound then st
  else { st with surface := "", inflight := st.inflight ++ [⟨now, cleanCode code⟩] }

/-- The part of `initializeMermaid` after the `await`, for the outcome of
`mermaid.render`: a resolved promise assigns its `svg` to `wrapper.innerHTML`; a
rejected one is caught and reported with `toast.error`. -/
def initializeMermaidResume (st : RenderState) : Except String String → RenderState
  | .ok svg => { st with surface := svg }
  | .error _ => { st with toasts := st.toasts ++ ["Failed to render flowchart"] }

/-- One event of render coordination. The rendering library is a parameter:
`render id source` is the outcome of `mermaid.render` for the element id made
from `id` and the cleaned source. -/
def stepRender (render : Nat → String → Except String String) (st : RenderState) :
    RenderEvent → RenderState
  | .trigger code now wrapperFound => initializeMermaidStart st code now wrapperFound
  | .settle i =>
    match st.inflight.get? i with
    | none => st
    | some p =>
      initializeMermaidResume { st with inflight := st.inflight.eraseIdx i }
        (render p.token p.source)

/-- A sequence of render events, applied from left to right. -/
def runRender (render : Nat → String → Except String String) (st : RenderState)
    (evs : List RenderEvent) : RenderState :=
  evs.foldl (stepRender render) st

/-- A stand-in for the rendering library in examples: it wraps the source in an
`svg` element carrying the element id. -/
def sampleRender (id : Nat) (source : String) : Except String String :=
  .ok ("<svg id=flowchart-" ++ toString id ++ ">" ++ source ++ "</svg>")

/-! ## Edit / explain request flow -/

/-- The value of the `type` field of a request body. -/
inductive Category where
  | edit
  | summary
  | mermaid
  | pseudocode
  deriving DecidableEq, Repr

/-- The fields of a JSON response body that the handlers read; a field that is
absent is `none`. -/
structure Payload where
  error : Option String
  mermaidCode : Option String
  summary : Option String
  keyPoints : Option (List String)
  pseudocode : Option String
  deriving DecidableEq, Repr

/-- JavaScript truthiness of a field holding a string: present and non-empty. -/
def truthy : Option String → Bool
  | none => false
  | some s => s != ""

/-- What a request comes back with: `fetch` rejects with a message; or there is
a response with its `ok` flag whose `json()` rejects with a message; or there is
a response with its `ok` flag and a parsed body. -/
inductive Response where
  | networkError (message : String)
  | invalidBody (ok : Bool) (message : String)
  | body (ok : Bool) (data : Payload)
  deriving DecidableEq, Repr

/-- A call of `toast.success` or `toast.error` with its message. -/
inductive Toast where
  | success (message : String)
  | error (message : String)
  deriving DecidableEq, Repr

/-- A request suspended at `await fetch(...)`: the `type`, `prompt` and
`currentFlowchart` of its body. -/
structure Request where
  category : Category
  prompt : String
  currentFlowchart : String
  deriving DecidableEq, Repr

/-- The state that the request handlers read and write: the `code` prop, the
`useState` cells of the panels, busy flags, render marker and edit dialog, the
`lastFlowchartPrompt` entry of `localStorage`, the arguments of the `onChange`
calls and the toasts made so far, and the requests awaiting their response. -/
structure AppState where
  code : String
  showSummary : Bool
  showMermaidSyntax : Bool
  showPseudocode : Bool
  summary : Option String
  keyPoints : Option (List String)
  mermaidSyntax : Option String
  pseudocode : Option String
  summaryLoading : Bool
  syntaxLoading : Bool
  pseudocodeLoading : Bool
  lastUpdate : Option Nat
  showEditPrompt : Bool
  storedPrompt : Option String
  onChangeCalls : List String
  toasts : List Toast
  inflight : List Request
  deriving DecidableEq, Repr

/-- The state at mount for a given `code` prop and a given stored prompt. -/
def initialApp (code : String) (storedPrompt : Option String) : AppState :=
  { code := code
    showSummary := false
    showMermaidSyntax := false
    showPseudocode := false
    summary := some ""
    keyPoints := some []
    mermaidSyntax := some ""
    pseudocode := some ""
    summaryLoading := false
    syntaxLoading := false
    pseudocodeLoading := false
    lastUpdate := none
    showEditPrompt := false
    storedPrompt := storedPrompt
    onChangeCalls := []
    toasts := []
    inflight := [] }

/-- The part of `handleEditPrompt` up to `await fetch(...)`: the request body is
built from the prompt and the current `code`, and the request is sent. -/
def handleEditPromptStart (s : AppState) (prompt : String) : AppState :=
  { s with inflight := s.inflight ++ [⟨.edit, prompt, s.code⟩] }

/-- The `catch` block of `handleEditPrompt`:
`toast.error(error.message || 'Failed to edit flowchart')`. -/
def handleEditPromptCatch (s : AppState) (message : String) : AppState :=
  { s with
    toasts := s.toasts ++
      [.error (if message = "" then "Failed to edit flowchart" else message)] }

/-- The part of `handleEditPrompt` after `await fetch(...)`. A rejected `fetch`
or `json()` goes to the `catch` block with its message; `!response.ok ||
data.error` throws `data.error || 'Failed to edit flowchart'`; a truthy
`data.mermaidCode` is passed to `onChange`, the marker is set to `Date.now()`,
the prompt is stored, success is reported and the dialog is closed; otherwise
'No valid flowchart code received' is thrown. -/
def handleEditPromptResume (s : AppState) (prompt : String) (now : Nat) :
    Response → AppState
  | .networkError message => handleEditPromptCatch s message
  | .invalidBody _ message => handleEditPromptCatch s message
  | .body ok data =>
    if !ok || truthy data.error then
      handleEditPromptCatch s
        (if truthy data.error then data.error.getD "" else "Failed to edit flowchart")
    else if truthy data.mermaidCode then
      { s with
        onChangeCalls := s.onChangeCalls ++ [data.mermaidCode.getD ""]
        lastUpdate := some now
        storedPrompt := some prompt
        toasts := s.toasts ++ [.success "Flowchart updated successfully!"]
        showEditPrompt := false }
    else handleEditPromptCatch s "No valid flowchart code received"

/-- The part of `generateSummary` up to `await fetch(...)`: nothing for an
empty `code`; otherwise the busy flag is set and the request is sent. -/
def generateSummaryStart (s : AppState) : AppState :=
  if s.code = "" then s
  else { s with summaryLoading := true, inflight := s.inflight ++ [⟨.summary, s.code, s.code⟩] }

/-- The `catch` and `finally` blocks of `generateSummary`. -/
def generateSummaryCatch (s : AppState) : AppState :=
  { s with
    toasts := s.toasts ++ [.error "Failed to generate explanation"]
    summaryLoading := false }

/-- The part of `generateSummary` after `await fetch(...)`, `finally` included. -/
def generateSummaryResume (s : AppState) : Response → AppState
  | .networkError _ => generateSummaryCatch s
  | .invalidBody _ _ => generateSummaryCatch s
  | .body ok data =>
    if !ok then generateSummaryCatch s
    else if truthy data.error then generateSummaryCatch s
    else
      { s with
        summary := data.summary
        keyPoints := data.keyPoints
        showSummary := true
        showMermaidSyntax := false
        showPseudocode := false
        summaryLoading := false }

/-- The part of `generateMermaidSyntax` up to `await fetch(...)`. -/
def generateMermaidSyntaxStart (s : AppState) : AppState :=
  if s.code = "" then s
  else { s with syntaxLoading := true, inflight := s.inflight ++ [⟨.mermaid, s.code, s.code⟩] }

/-- The `catch` and `finally` blocks of `generateMermaidSyntax`. -/
def generateMermaidSyntaxCatch (s : AppState) : AppState :=
  { s with
    toasts := s.toasts ++ [.error "Failed to get Mermaid syntax"]
    syntaxLoading := false }

/-- The part of `generateMermaidSyntax` after `await fetch(...)`, `finally`
included. -/
def generateMermaidSyntaxResume (s : AppState) : Response → AppState
  | .networkError _ => generateMermaidSyntaxCatch s
  | .invalidBody _ _ => generateMermaidSyntaxCatch s
  | .body ok data =>
    if !ok then generateMermaidSyntaxCatch s
    else if truthy data.error then generateMermaidSyntaxCatch s
    else
      { s with
        mermaidSyntax := data.mermaidCode
        showMermaidSyntax := true
        showSummary := false
        showPseudocode := false
        syntaxLoading := false }

/-- The part of `generatePseudocode` up to `await fetch(...)`. -/
def generatePseudocodeStart (s : AppState) : AppState :=
  if s.code = "" then s
  else
    { s with
      pseudocodeLoading := true
      inflight := s.inflight ++ [⟨.pseudocode, s.code, s.code⟩] }

/-- The `catch` and `finally` blocks of `generatePseudocode`. -/
def generatePseudocodeCatch (s : AppState) : AppState :=
  { s with
    toasts := s.toasts ++ [.error "Failed to generate pseudocode"]
    pseudocodeLoading := false }

/-- The part of `generatePseudocode` after `await fetch(...)`, `finally`
included. -/
def generatePseudocodeResume (s : AppState) : Response → AppState
  | .networkError _ => generatePseudocodeCatch s
  | .invalidBody _ _ => generatePseudocodeCatch s
  | .body ok data =>
    if !ok then generatePseudocodeCatch s
    else if truthy data.error then generatePseudocodeCatch s
    else
      { s with
        pseudocode := data.pseudocode
        showPseudocode := true
        showSummary := false
        showMermaidSyntax := false
        pseudocodeLoading := false }

/-- The events of the request flow as the rendered interface produces them.
The three toolbar buttons carry `disabled={summaryLoading}`,
`disabled={syntaxLoading}` and `disabled={pseudocodeLoading}`; the button
'Apply Changes' of the edit dialog exists while the dialog is shown and calls
`onSubmit(prompt)` when `prompt.trim()` is non-empty. `respond i r now` delivers
the outcome `r` to the `i`-th request in flight (counted from 0, oldest first)
at time `now`. `setCode` is the host passing a new `code` prop. -/
inductive AppEvent where
  | clickExplain
  | clickViewMermaid
  | clickViewPseudocode
  | openEditPrompt
  | closeEditPrompt
  | submitEdit (prompt : String)
  | respond (i : Nat) (r : Response) (now : Nat)
  | closeSummary
  | closeMermaidSyntax
  | closePseudocode
  | setCode (code : String)
  deriving DecidableEq, Repr

/-- The continuation of a request, chosen by its category. -/
def resumeRequest (s : AppState) (req : Request) (r : Response) (now : Nat) : AppState :=
  match req.category with
  | .edit => handleEditPromptResume s req.prompt now r
  | .summary => generateSummaryResume s r
  | .mermaid => generateMermaidSyntaxResume s r
  | .pseudocode => generatePseudocodeResume s r

/-- One event of the request flow. -/
def stepApp (s : AppState) : AppEvent → AppState
  | .clickExplain => if s.summaryLoading then s else generateSummaryStart s
  | .clickViewMermaid => if s.syntaxLoading then s else generateMermaidSyntaxStart s
  | .clickViewPseudocode => if s.pseudocodeLoading then s else generatePseudocodeStart s
  | .openEditPrompt => { s with showEditPrompt := true }
  | .closeEditPrompt => { s with showEditPrompt := false }
  | .submitEdit prompt =>
    if s.showEditPrompt && !(jsTrim prompt.data).isEmpty then handleEditPromptStart s prompt
    else s
  | .respond i r now =>
    match s.inflight.get? i with
    | none => s
    | some req => resumeRequest { s with inflight := s.inflight.eraseIdx i } req r now
  | .closeSummary => { s with showSummary := false }
  | .closeMermaidSyntax => { s with showMermaidSyntax := false }
  | .closePseudocode => { s with showPseudocode := false }
  | .setCode code => { s with code := code }

/-- A sequence of events, applied from left to right. -/
def runApp (s : AppState) (evs : List AppEvent) : AppState :=
  evs.foldl stepApp s

/-- The number of requests of a category that are in flight. -/
def pendingCount (c : Category) (s : AppState) : Nat :=
  s.inflight.countP (fun req => req.category = c)

/-- The toolbar click that starts a request of a category; the edit category
has no toolbar button that sends a request. -/
def toolbarClick : Category → Option AppEvent
  | .edit => none
  | .summary => some .clickExplain
  | .mermaid => some .clickViewMermaid
  | .pseudocode => some .clickViewPseudocode

/-- The busy flag of a category; the edit category has none. -/
def busy : Category → AppState → Bool
  | .edit, _ => false
  | .summary, s => s.summaryLoading
  | .mermaid, s => s.syntaxLoading
  | .pseudocode, s => s.pseudocodeLoading

/-- The relation between busy flags and requests in flight that the toolbar
maintains: for each category other than edit, one request is in flight when the
busy flag is set and none when it is clear. -/
def BusyMatchesPending (s : AppState) : Prop :=
  ∀ c : Category, c ≠ .edit → pendingCount c s = if busy c s then 1 else 0

/-- `String.prototype.trim` on a string. -/
def trim (s : String) : String :=
  ⟨jsTrim s.data⟩

/-- A stand-in for the rendering library in examples that, like the library,
rejects a source it cannot parse: a source that starts with the word graph is
rendered as by `sampleRender`, any other source is a parse error. -/
def strictRender (id : Nat) (source : String) : Except String String :=
  if "graph".data.isPrefixOf source.data then sampleRender id source
  else .error "Parse error"

/-- No two of the three side panels are shown together. -/
def AtMostOnePanel (s : AppState) : Prop :=
  (s.showSummary && s.showMermaidSyntax) = false ∧
    (s.showSummary && s.showPseudocode) = false ∧
    (s.showMermaidSyntax && s.showPseudocode) = false

/-- The failures that `generateSummary`, `generateMermaidSyntax` and
`generatePseudocode` test for: a rejected `fetch`, a rejected `json()`, a
non-success status, a truthy `data.error`. -/
def explicitFailure : Response → Bool
  | .networkError _ => true
  | .invalidBody _ _ => true
  | .body ok data => !ok || truthy data.error

/-! ## Viewport: lemmas -/

theorem min_max_eq_specClamp (x lo hi : ℚ) (h : lo ≤ hi) :
    min (max lo x) hi = specClamp x lo hi := by
  unfold specClamp
  split_ifs with h1 h2
  · rw [max_eq_left h1.le, min_eq_left h]
  · rw [max_eq_right (not_lt.mp h1), min_eq_right h2.le]
  · rw [max_eq_right (not_lt.mp h1), min_eq_left (not_lt.mp h2)]

theorem runFrameCallback_foldl_append (ps : List Point) (s : ViewState) (p : Point) :
    (ps ++ [p]).foldl runFrameCallback s = { s with position := p } := by
  induction ps generalizing s with
  | nil => rfl
  | cons q ps ih => exact ih (runFrameCallback s q)

theorem clampScale_bounds (v : ℚ) : 3 / 10 ≤ clampScale v ∧ clampScale v ≤ 3 := by
  unfold clampScale
  refine ⟨le_min (le_max_left _ _) (by norm_num), min_le_right _ _⟩

theorem runFrameCallback_foldl_scale (ps : List Point) (s : ViewState) :
    (ps.foldl runFrameCallback s).scale = s.scale := by
  induction ps generalizing s with
  | nil => rfl
  | cons p ps ih => simp [List.foldl_cons, ih, runFrameCallback]

theorem stepView_scaleInRange (v : Viewer) (op : ViewOp)
    (h : ScaleInRange v.view) : ScaleInRange (stepView v op).view := by
  cases op with
  | zoomBy delta => exact clampScale_bounds (v.view.scale + delta)
  | wheel e =>
    simp only [stepView, handleWheel]
    split
    · exact clampScale_bounds (v.view.scale + -e.deltaY * (2 / 1000))
    · exact h
  | beginPan e =>
    simp only [stepView, handleMouseDown]
    split
    · exact h
    · split
      · exact h
      · exact h
  | updatePan e =>
    simp only [stepView]
    split
    · exact h
    · exact h
  | endPan => exact h
  | reset => simp [stepView, onReset, ScaleInRange]; norm_num
  | frame =>
    simp only [stepView, ScaleInRange, runFrameCallback_foldl_scale]
    exact h

theorem runView_scaleInRange (ops : List ViewOp) (v : Viewer)
    (h : ScaleInRange v.view) : ScaleInRange (runView v ops).view := by
  induction ops generalizing v with
  | nil => exact h
  | cons op ops ih => exact ih (stepView v op) (stepView_scaleInRange v op h)

theorem initialView_scaleInRange : ScaleInRange initialViewer.view := by
  simp [initialViewer, initialView, ScaleInRange]; norm_num

/-! ## Request flow: lemmas -/

theorem countP_eraseIdx_add (q : Request → Bool) :
    ∀ (l : List Request) (i : Nat) (a : Request), l.get? i = some a →
      (l.eraseIdx i).countP q + (if q a then 1 else 0) = l.countP q := by
  intro l
  induction l with
  | nil => intro i a h; simp at h
  | cons b l ih =>
    intro i a h
    cases i with
    | zero =>
      simp only [List.get?_cons_zero, Option.some.injEq] at h
      subst h
      simp only [List.eraseIdx_cons_zero, List.countP_cons]
    | succ i =>
      simp only [List.get?_cons_succ] at h
      simp only [List.eraseIdx_cons_succ, List.countP_cons]
      have := ih i a h
      omega

theorem resumeRequest_inflight (s : AppState) (req : Request) (r : Response) (now : Nat) :
    (resumeRequest s req r now).inflight = s.inflight := by
  obtain ⟨cat, p, cf⟩ := req
  cases cat <;> cases r <;>
    simp only [resumeRequest, handleEditPromptResume, handleEditPromptCatch,
      generateSummaryResume, generateSummaryCatch, generateMermaidSyntaxResume,
      generateMermaidSyntaxCatch, generatePseudocodeResume, generatePseudocodeCatch] <;>
    (try split_ifs) <;> rfl

theorem resumeRequest_busy (s : AppState) (req : Request) (r : Response) (now : Nat)
    (c : Category) :
    busy c (resumeRequest s req r now) = if req.category = c then false else busy c s := by
  obtain ⟨cat, p, cf⟩ := req
  cases cat <;> cases c <;> cases r <;>
    simp only [resumeRequest, handleEditPromptResume, handleEditPromptCatch,
      generateSummaryResume, generateSummaryCatch, generateMermaidSyntaxResume,
      generateMermaidSyntaxCatch, generatePseudocodeResume, generatePseudocodeCatch] <;>
    (try split_ifs) <;> first | contradiction | simp [busy]

theorem busyMatchesPending_initial (code : String) (stored : Option String) :
    BusyMatchesPending (initialApp code stored) := by
  intro c _
  cases c <;> simp [pendingCount, busy, initialApp]

theorem busyMatchesPending_start (s s' : AppState) (req : Request)
    (hinv : BusyMatchesPending s) (hin : s'.inflight = s.inflight ++ [req])
    (hbusy : ∀ c, c ≠ .edit → busy c s' = if req.category = c then true else busy c s)
    (hfree : ∀ c, c ≠ .edit → req.category = c → busy c s = false) :
    BusyMatchesPending s' := by
  intro c hc
  have h1 := hinv c hc
  have h2 := hbusy c hc
  unfold pendingCount at h1 ⊢
  rw [hin, List.countP_append, h1, h2]
  by_cases hcat : req.category = c
  · have h3 := hfree c hc hcat
    simp [hcat, h3]
  · simp [hcat]

theorem busyMatchesPending_frame (s s' : AppState) (hinv : BusyMatchesPending s)
    (hin : s'.inflight = s.inflight) (hbusy : ∀ c, busy c s' = busy c s) :
    BusyMatchesPending s' := by
  intro c hc
  have h1 := hinv c hc
  unfold pendingCount at h1 ⊢
  rw [hin, hbusy c, h1]

theorem busyMatchesPending_respond (s : AppState) (i : Nat) (req : Request) (r : Response)
    (now : Nat) (hinv : BusyMatchesPending s) (hget : s.inflight.get? i = some req) :
    BusyMatchesPending
      (resumeRequest { s with inflight := s.inflight.eraseIdx i } req r now) := by
  intro c hc
  have h1 := hinv c hc
  have h2 := countP_eraseIdx_add (fun q => decide (q.category = c)) s.inflight i req hget
  unfold pendingCount at h1 ⊢
  rw [resumeRequest_inflight, resumeRequest_busy]
  have hb : busy c { s with inflight := s.inflight.eraseIdx i } = busy c s := by
    cases c <;> rfl
  rw [hb]
  simp only [decide_eq_true_eq] at h2
  by_cases hcat : req.category = c
  · simp only [hcat, if_true] at h2 ⊢
    simp only [Bool.false_eq_true, if_false]
    split_ifs at h1 with hbz
    · omega
    · omega
  · simp only [hcat, if_false] at h2 ⊢
    simp only [Nat.add_zero] at h2
    rw [h2, h1]

theorem stepApp_busyMatchesPending (s : AppState) (ev : AppEvent)
    (hinv : BusyMatchesPending s) : BusyMatchesPending (stepApp s ev) := by
  cases ev with
  | clickExplain =>
    simp only [stepApp, generateSummaryStart]
    split_ifs with h1 h2
    · exact hinv
    · exact hinv
    · refine busyMatchesPending_start s _ ⟨.summary, s.code, s.code⟩ hinv rfl ?_ ?_
      · intro c _; cases c <;> simp [busy]
      · intro c _ hcat; subst hcat; simpa [busy] using h1
  | clickViewMermaid =>
    simp only [stepApp, generateMermaidSyntaxStart]
    split_ifs with h1 h2
    · exact hinv
    · exact hinv
    · refine busyMatchesPending_start s _ ⟨.mermaid, s.code, s.code⟩ hinv rfl ?_ ?_
      · intro c _; cases c <;> simp [busy]
      · intro c _ hcat; subst hcat; simpa [busy] using h1
  | clickViewPseudocode =>
    simp only [stepApp, generatePseudocodeStart]
    split_ifs with h1 h2
    · exact hinv
    · exact hinv
    · refine busyMatchesPending_start s _ ⟨.pseudocode, s.code, s.code⟩ hinv rfl ?_ ?_
      · intro c _; cases c <;> simp [busy]
      · intro c _ hcat; subst hcat; simpa [busy] using h1
  | openEditPrompt =>
    exact busyMatchesPending_frame s _ hinv rfl (fun c => by cases c <;> rfl)
  | closeEditPrompt =>
    exact busyMatchesPending_frame s _ hinv rfl (fun c => by cases c <;> rfl)
  | submitEdit prompt =>
    simp only [stepApp, handleEditPromptStart]
    split_ifs with h1
    · refine busyMatchesPending_start s _ ⟨.edit, prompt, s.code⟩ hinv rfl ?_ ?_
      · intro c hc; cases c <;> first | exact absurd rfl hc | simp [busy]
      · intro c hc hcat; exact absurd hcat.symm hc
    · exact hinv
  | respond i r now =>
    simp only [stepApp]
    split
    · exact hinv
    · next req hget => exact busyMatchesPending_respond s i req r now hinv hget
  | closeSummary =>
    exact busyMatchesPending_frame s _ hinv rfl (fun c => by cases c <;> rfl)
  | closeMermaidSyntax =>
    exact busyMatchesPending_frame s _ hinv rfl (fun c => by cases c <;> rfl)
  | closePseudocode =>
    exact busyMatchesPending_frame s _ hinv rfl (fun c => by cases c <;> rfl)
  | setCode code =>
    exact busyMatchesPending_frame s _ hinv rfl (fun c => by cases c <;> rfl)

theorem runApp_busyMatchesPending (evs : List AppEvent) (s : AppState)
    (hinv : BusyMatchesPending s) : BusyMatchesPending (runApp s evs) := by
  induction evs generalizing s with
  | nil => exact hinv
  | cons ev evs ih => exact ih (stepApp s ev) (stepApp_busyMatchesPending s ev hinv)

/-! ## Viewport: claims -/

/-- C1. Scale invariant: from the initial viewport state, after every step of
every finite sequence of viewport operations (toolbar zoom with any delta, wheel
with any deltaY and either modifier state, beginPan, updatePan, endPan, reset,
and the animation frames that apply scheduled pan updates) the scale lies in
`[0.3, 3]`. Every step of a run is the end of a prefix `ops.take n`. -/
theorem scale_invariant (ops : List ViewOp) (n : Nat) :
    3 / 10 ≤ (runView initialViewer (ops.take n)).view.scale ∧
      (runView initialViewer (ops.take n)).view.scale ≤ 3 :=
  runView_scaleInRange (ops.take n) initialViewer initialView_scaleInRange

/-- C2. The toolbar reset handler yields scale 1 and offset (0,0) from every
prior state, whatever its scale, offset, drag anchor and pan state. -/
theorem reset_yields_identity (s : ViewState) :
    (onReset s).scale = 1 ∧ (onReset s).position = ⟨0, 0⟩ :=
  ⟨rfl, rfl⟩

/-- C3. A mouse-down whose target lies inside a `.node` or `.toolbar` element
leaves the whole viewport state (pan state, drag anchor, offset, scale)
unchanged, for any button and any coordinates. -/
theorem mouseDown_interactive_unchanged (s : ViewState) (e : MouseEvent)
    (h : e.closestNode = true ∨ e.closestToolbar = true) :
    handleMouseDown s e = s := by
  unfold handleMouseDown
  rcases h with h | h <;> simp [h]

/-- Witness for C3: a primary-button press inside a node while panning. -/
theorem mouseDown_interactive_unchanged_witness :
    handleMouseDown ⟨true, ⟨5, 7⟩, ⟨1, 2⟩, 2⟩ ⟨true, false, 0, 40, 50⟩
      = ⟨true, ⟨5, 7⟩, ⟨1, 2⟩, 2⟩ :=
  mouseDown_interactive_unchanged ⟨true, ⟨5, 7⟩, ⟨1, 2⟩, 2⟩ ⟨true, false, 0, 40, 50⟩
    (Or.inl rfl)

/-- C7. Toolbar zoom: the new scale is `clamp(scale + delta, 0.3, 3)`, which is
`min(max(0.3, scale + delta), 3)`; offset, drag anchor and pan state are
unchanged; and when `0.3 ≤ scale + delta ≤ 3` the new scale is `scale + delta`. -/
theorem zoomBy_postcondition (s : ViewState) (delta : ℚ) :
    (onZoom s delta).scale = specClamp (s.scale + delta) (3 / 10) 3 ∧
      specClamp (s.scale + delta) (3 / 10) 3 = min (max (3 / 10) (s.scale + delta)) 3 ∧
      (onZoom s delta).position = s.position ∧
      (onZoom s delta).startPan = s.startPan ∧
      (onZoom s delta).isPanning = s.isPanning ∧
      (3 / 10 ≤ s.scale + delta → s.scale + delta ≤ 3 →
        (onZoom s delta).scale = s.scale + delta) := by
  have hc := min_max_eq_specClamp (s.scale + delta) (3 / 10) 3 (by norm_num)
  refine ⟨hc, hc.symm, rfl, rfl, rfl, fun hlo hhi => ?_⟩
  show min (max (3 / 10) (s.scale + delta)) 3 = s.scale + delta
  rw [max_eq_right hlo, min_eq_left hhi]

/-- Witness for C7: zooming in by 0.1 from scale 1 gives 1 + 0.1. -/
theorem zoomBy_postcondition_witness :
    (onZoom ⟨false, ⟨0, 0⟩, ⟨0, 0⟩, 1⟩ (1 / 10)).scale = 1 + 1 / 10 :=
  (zoomBy_postcondition ⟨false, ⟨0, 0⟩, ⟨0, 0⟩, 1⟩ (1 / 10)).2.2.2.2.2
    (by norm_num) (by norm_num)

/-- C8. Wheel zoom is gated by `ctrlKey`: without it `handleWheel` leaves the
whole viewport state unchanged; with it the new scale is
`clamp(scale + (-deltaY * 0.002), 0.3, 3)` and nothing else changes. -/
theorem wheel_gated_by_modifier (s : ViewState) (e : WheelEvent) :
    (e.ctrlKey = false → handleWheel s e = s) ∧
      (e.ctrlKey = true →
        handleWheel s e =
          { s with scale := specClamp (s.scale + -e.deltaY * (2 / 1000)) (3 / 10) 3 }) := by
  refine ⟨fun h => by simp [handleWheel, h], fun h => ?_⟩
  rw [← min_max_eq_specClamp _ _ _ (by norm_num)]
  simp [handleWheel, h]

/-- Witness for C8: a wheel event of deltaY = -100 with the modifier held, at
scale 1, and the same event without the modifier. -/
theorem wheel_gated_by_modifier_witness :
    handleWheel ⟨false, ⟨0, 0⟩, ⟨0, 0⟩, 1⟩ ⟨false, -100⟩ = ⟨false, ⟨0, 0⟩, ⟨0, 0⟩, 1⟩ ∧
      handleWheel ⟨false, ⟨0, 0⟩, ⟨0, 0⟩, 1⟩ ⟨true, -100⟩ =
        { (⟨false, ⟨0, 0⟩, ⟨0, 0⟩, 1⟩ : ViewState) with
          scale := specClamp (1 + -(-100) * (2 / 1000)) (3 / 10) 3 } :=
  ⟨(wheel_gated_by_modifier ⟨false, ⟨0, 0⟩, ⟨0, 0⟩, 1⟩ ⟨false, -100⟩).1 rfl,
    (wheel_gated_by_modifier ⟨false, ⟨0, 0⟩, ⟨0, 0⟩, 1⟩ ⟨true, -100⟩).2 rfl⟩

/-- C9, as stated, fails: a press of the secondary button (button 2) at (10, 20)
on a target outside every `.node` and `.toolbar`, in the idle initial state,
does not enter the panning state and records no anchor. -/
theorem beginPan_other_button_counterexample :
    (⟨false, false, 2, 10, 20⟩ : MouseEvent).closestNode = false ∧
      (⟨false, false, 2, 10, 20⟩ : MouseEvent).closestToolbar = false ∧
      (handleMouseDown initialView ⟨false, false, 2, 10, 20⟩).isPanning = false ∧
      (handleMouseDown initialView ⟨false, false, 2, 10, 20⟩).startPan ≠ ⟨10 - 0, 20 - 0⟩ := by
  refine ⟨rfl, rfl, rfl, ?_⟩
  simp [handleMouseDown, initialView]

/-- C9, amended. On a target outside every `.node` and `.toolbar`: a press of
the primary button (button 0) at `p` records the anchor `p - offset` and enters
the panning state, leaving offset and scale unchanged; a press of any other
button leaves the viewport state unchanged. -/
theorem beginPan_primary_button (s : ViewState) (e : MouseEvent)
    (hn : e.closestNode = false) (ht : e.closestToolbar = false) :
    (e.button = 0 →
        handleMouseDown s e =
          { s with
            isPanning := true
            startPan := ⟨e.clientX - s.position.x, e.clientY - s.position.y⟩ }) ∧
      (e.button ≠ 0 → handleMouseDown s e = s) := by
  refine ⟨fun h => by simp [handleMouseDown, hn, ht, h],
    fun h => by simp [handleMouseDown, hn, ht, h]⟩

/-- Witness for C9 amended: a primary-button press at (10, 20) with offset
(3, 4) records the anchor (7, 16). -/
theorem beginPan_primary_button_witness :
    handleMouseDown ⟨false, ⟨3, 4⟩, ⟨0, 0⟩, 1⟩ ⟨false, false, 0, 10, 20⟩ =
      { (⟨false, ⟨3, 4⟩, ⟨0, 0⟩, 1⟩ : ViewState) with
        isPanning := true
        startPan := ⟨10 - 3, 20 - 4⟩ } :=
  (beginPan_primary_button ⟨false, ⟨3, 4⟩, ⟨0, 0⟩, 1⟩ ⟨false, false, 0, 10, 20⟩ rfl rfl).1 rfl

/-- C10. A pointer move at `p` with drag anchor `a`: while panning,
`handleMouseMove` changes no state itself and schedules exactly one
animation-frame callback, and when the frame runs the offset becomes `p - a`
with scale, anchor and pan state as they were; while idle the state is unchanged
and nothing is scheduled. -/
theorem updatePan_offset (v : Viewer) (e : MouseEvent) :
    (v.view.isPanning = true →
        stepView v (.updatePan e) =
            { v with
              pending := v.pending ++
                [⟨e.clientX - v.view.startPan.x, e.clientY - v.view.startPan.y⟩] } ∧
          stepView (stepView v (.updatePan e)) .frame =
            { view :=
                { v.view with
                  position := ⟨e.clientX - v.view.startPan.x, e.clientY - v.view.startPan.y⟩ }
              pending := [] }) ∧
      (v.view.isPanning = false →
        handleMouseMove v.view e = none ∧ stepView v (.updatePan e) = v) := by
  constructor
  · intro h
    have h1 : stepView v (.updatePan e) =
        { v with
          pending := v.pending ++
            [⟨e.clientX - v.view.startPan.x, e.clientY - v.view.startPan.y⟩] } := by
      simp [stepView, handleMouseMove, h]
    refine ⟨h1, ?_⟩
    rw [h1]
    simp only [stepView, runFrameCallback_foldl_append]
  · intro h
    simp [stepView, handleMouseMove, h]

/-- Witness for C10: panning with anchor (7, 16), a move to (30, 40) gives the
offset (23, 24) at the next frame; the same move while idle schedules nothing. -/
theorem updatePan_offset_witness :
    stepView (stepView ⟨⟨true, ⟨3, 4⟩, ⟨7, 16⟩, 1⟩, []⟩ (.updatePan ⟨false, false, 0, 30, 40⟩))
        .frame =
        { view := { (⟨true, ⟨3, 4⟩, ⟨7, 16⟩, 1⟩ : ViewState) with position := ⟨30 - 7, 40 - 16⟩ }
          pending := [] } ∧
      stepView ⟨⟨false, ⟨3, 4⟩, ⟨7, 16⟩, 1⟩, []⟩ (.updatePan ⟨false, false, 0, 30, 40⟩) =
        ⟨⟨false, ⟨3, 4⟩, ⟨7, 16⟩, 1⟩, []⟩ :=
  ⟨((updatePan_offset ⟨⟨true, ⟨3, 4⟩, ⟨7, 16⟩, 1⟩, []⟩ ⟨false, false, 0, 30, 40⟩).1 rfl).2,
    ((updatePan_offset ⟨⟨false, ⟨3, 4⟩, ⟨7, 16⟩, 1⟩, []⟩ ⟨false, false, 0, 30, 40⟩).2 rfl).2⟩

/-! ## Render coordination: lemmas -/

theorem get?_append_length (l : List RenderPass) (a : RenderPass) (r : List RenderPass) :
    (l ++ a :: r).get? l.length = some a := by
  induction l with
  | nil => rfl
  | cons b l ih => simpa using ih

theorem eraseIdx_append_length (l : List RenderPass) (a : RenderPass) (r : List RenderPass) :
    (l ++ a :: r).eraseIdx l.length = l ++ r := by
  rw [List.eraseIdx_append_of_length_le (le_refl _)]
  simp

theorem get?_append_length_succ (l : List RenderPass) (a b : RenderPass) :
    (l ++ [a, b]).get? (l.length + 1) = some b := by
  have h := get?_append_length (l ++ [a]) b []
  simpa using h

theorem eraseIdx_append_length_succ (l : List RenderPass) (a b : RenderPass) :
    (l ++ [a, b]).eraseIdx (l.length + 1) = l ++ [a] := by
  have h := eraseIdx_append_length (l ++ [a]) b []
  simpa using h

theorem runRender_append (render : Nat → String → Except String String) (st : RenderState)
    (evs evs' : List RenderEvent) :
    runRender render st (evs ++ evs') = runRender render (runRender render st evs) evs' := by
  simp only [runRender, List.foldl_append]

theorem runRender_two_triggers (render : Nat → String → Except String String)
    (st : RenderState) (c1 c2 : String) (t1 t2 : Nat) (h1 : c1 ≠ "") (h2 : c2 ≠ "") :
    runRender render st [.trigger c1 t1 true, .trigger c2 t2 true] =
      { surface := ""
        inflight := st.inflight ++ [⟨t1, cleanCode c1⟩, ⟨t2, cleanCode c2⟩]
        toasts := st.toasts } := by
  simp [runRender, stepRender, initializeMermaidStart, h1, h2]

theorem stepRender_settle_ok (render : Nat → String → Except String String)
    (st : RenderState) (i : Nat) (p : RenderPass) (svg : String)
    (hp : st.inflight.get? i = some p) (hr : render p.token p.source = .ok svg) :
    stepRender render st (.settle i) =
      { st with surface := svg, inflight := st.inflight.eraseIdx i } := by
  simp only [stepRender, hp, hr, initializeMermaidResume]

/-! ## Render coordination: claims -/

/-- C4, as stated, fails. Two passes are issued, for the sources "graph TD; A-->B"
and then "graph TD; A-->C". When the first pass resolves while the second is
still in flight, its output is written to the surface; and when the second
resolves before the first, the surface ends with the output of the first,
superseded pass, not with that of the pass issued last. -/
theorem stale_render_counterexample :
    runRender sampleRender initialRender
        [.trigger "graph TD; A-->B" 1 true, .trigger "graph TD; A-->C" 2 true, .settle 0] =
        { surface := "<svg id=flowchart-1>graph TD; A-->B</svg>"
          inflight := [⟨2, "graph TD; A-->C"⟩]
          toasts := [] } ∧
      (runRender sampleRender initialRender
        [.trigger "graph TD; A-->B" 1 true, .trigger "graph TD; A-->C" 2 true,
          .settle 1, .settle 0]).surface =
        "<svg id=flowchart-1>graph TD; A-->B</svg>" ∧
      sampleRender 2 (cleanCode "graph TD; A-->C") =
        .ok "<svg id=flowchart-2>graph TD; A-->C</svg>" := by
  refine ⟨by decide, by decide, rfl⟩

/-- C4, amended. No token is compared: whenever the `mermaid.render` call of a
pass in flight resolves, its result is written to the mounted surface, whatever
other passes are in flight. So for two passes issued one after the other, from
any state: when the earlier one resolves while the later one is still in flight,
the output of the earlier, superseded pass is mounted; when the later one
resolves first and the earlier one after it, the surface ends with the output of
the earlier pass; and when they resolve in the order of issue, the surface ends
with the output of the later pass. -/
theorem settle_mounts_result (render : Nat → String → Except String String)
    (st : RenderState) (c1 c2 : String) (t1 t2 : Nat) (svg1 svg2 : String)
    (h1 : c1 ≠ "") (h2 : c2 ≠ "")
    (hr1 : render t1 (cleanCode c1) = .ok svg1) (hr2 : render t2 (cleanCode c2) = .ok svg2) :
    (∀ (i : Nat) (p : RenderPass) (svg : String),
        st.inflight.get? i = some p → render p.token p.source = .ok svg →
        stepRender render st (.settle i) =
          { st with surface := svg, inflight := st.inflight.eraseIdx i }) ∧
      runRender render st
          [.trigger c1 t1 true, .trigger c2 t2 true, .settle st.inflight.length] =
        { surface := svg1
          inflight := st.inflight ++ [⟨t2, cleanCode c2⟩]
          toasts := st.toasts } ∧
      runRender render st
          [.trigger c1 t1 true, .trigger c2 t2 true, .settle (st.inflight.length + 1),
            .settle st.inflight.length] =
        { surface := svg1, inflight := st.inflight, toasts := st.toasts } ∧
      runRender render st
          [.trigger c1 t1 true, .trigger c2 t2 true, .settle st.inflight.length,
            .settle st.inflight.length] =
        { surface := svg2, inflight := st.inflight, toasts := st.toasts } := by
  have hstart := runRender_two_triggers render st c1 c2 t1 t2 h1 h2
  simp only [runRender, List.foldl_cons, List.foldl_nil] at hstart ⊢
  have e1 : stepRender render
      { surface := ""
        inflight := st.inflight ++ [⟨t1, cleanCode c1⟩, ⟨t2, cleanCode c2⟩]
        toasts := st.toasts } (.settle st.inflight.length) =
      { surface := svg1, inflight := st.inflight ++ [⟨t2, cleanCode c2⟩], toasts := st.toasts } := by
    rw [stepRender_settle_ok render _ st.inflight.length ⟨t1, cleanCode c1⟩ svg1
      (get?_append_length _ _ _) hr1]
    simp only [eraseIdx_append_length]
  have e2 : stepRender render
      { surface := ""
        inflight := st.inflight ++ [⟨t1, cleanCode c1⟩, ⟨t2, cleanCode c2⟩]
        toasts := st.toasts } (.settle (st.inflight.length + 1)) =
      { surface := svg2, inflight := st.inflight ++ [⟨t1, cleanCode c1⟩], toasts := st.toasts } := by
    rw [stepRender_settle_ok render _ (st.inflight.length + 1) ⟨t2, cleanCode c2⟩ svg2
      (get?_append_length_succ _ _ _) hr2]
    simp only [eraseIdx_append_length_succ]
  have e3 : ∀ (surface : String) (t : Nat) (c svg : String), render t (cleanCode c) = .ok svg →
      stepRender render
        { surface := surface, inflight := st.inflight ++ [⟨t, cleanCode c⟩], toasts := st.toasts }
        (.settle st.inflight.length) =
      { surface := svg, inflight := st.inflight, toasts := st.toasts } := by
    intro surface t c svg hr
    rw [stepRender_settle_ok render _ st.inflight.length ⟨t, cleanCode c⟩ svg
      (get?_append_length _ _ _) hr]
    simp only [eraseIdx_append_length, List.append_nil]
  refine ⟨fun i p svg hp hr => stepRender_settle_ok render st i p svg hp hr, ?_, ?_, ?_⟩
  · rw [hstart, e1]
  · rw [hstart, e2, e3 _ _ _ _ hr1]
  · rw [hstart, e1, e3 _ _ _ _ hr2]

/-- Witness for C4 amended: from mount, passes for "graph TD; A-->B" and then
"graph TD; A-->C"; the first resolves while the second is in flight; the second
resolves first and the first after it; the two resolve in the order of issue. -/
theorem settle_mounts_result_witness :
    runRender sampleRender initialRender
          [.trigger "graph TD; A-->B" 1 true, .trigger "graph TD; A-->C" 2 true,
            .settle initialRender.inflight.length] =
        { surface := "<svg id=flowchart-1>graph TD; A-->B</svg>"
          inflight := initialRender.inflight ++ [⟨2, cleanCode "graph TD; A-->C"⟩]
          toasts := initialRender.toasts } ∧
      runRender sampleRender initialRender
          [.trigger "graph TD; A-->B" 1 true, .trigger "graph TD; A-->C" 2 true,
            .settle (initialRender.inflight.length + 1),
            .settle initialRender.inflight.length] =
        { surface := "<svg id=flowchart-1>graph TD; A-->B</svg>"
          inflight := initialRender.inflight
          toasts := initialRender.toasts } ∧
      runRender sampleRender initialRender
          [.trigger "graph TD; A-->B" 1 true, .trigger "graph TD; A-->C" 2 true,
            .settle initialRender.inflight.length, .settle initialRender.inflight.length] =
        { surface := "<svg id=flowchart-2>graph TD; A-->C</svg>"
          inflight := initialRender.inflight
          toasts := initialRender.toasts } :=
  (settle_mounts_result sampleRender initialRender "graph TD; A-->B" "graph TD; A-->C" 1 2
    "<svg id=flowchart-1>graph TD; A-->B</svg>" "<svg id=flowchart-2>graph TD; A-->C</svg>"
    (by decide) (by decide) rfl rfl).2

/-! ## Request flow: claims -/

/-- C5, as stated, fails: a successful response that carries `mermaidCode` with
the empty text as its value does not replace the diagram source; `onChange` is
not called, nothing is stored, the marker is not updated and a failure is
reported. -/
theorem edit_empty_code_counterexample :
    handleEditPromptResume (initialApp "A" none) "add an error step" 7
        (.body true ⟨none, some "", none, none, none⟩) =
      { initialApp "A" none with
        toasts := [.error "No valid flowchart code received"] } := by
  decide

/-- C5, amended. For every state, instruction and time: a response with success
status, no non-empty `error` and a non-empty `mermaidCode` B makes
`handleEditPrompt` call `onChange(B)`, set the render marker, store the
instruction, report success and close the dialog. Every other outcome leaves
everything as it was except for one failure notification, so `onChange` is not
called and nothing is stored: a parsed body with a non-success status, or with a
non-empty `error`, or with no non-empty `mermaidCode` (so every body that is
`{ error: ... }` alone); a response, of success status or not, whose `json()`
rejects; and a rejected `fetch`. -/
theorem edit_flow_outcome (s : AppState) (prompt : String) (now : Nat) (ok : Bool)
    (data : Payload) :
    (∀ B : String, B ≠ "" → ok = true → truthy data.error = false →
        data.mermaidCode = some B →
        handleEditPromptResume s prompt now (.body ok data) =
          { s with
            onChangeCalls := s.onChangeCalls ++ [B]
            lastUpdate := some now
            storedPrompt := some prompt
            toasts := s.toasts ++ [.success "Flowchart updated successfully!"]
            showEditPrompt := false }) ∧
      (ok = false ∨ truthy data.error = true ∨ truthy data.mermaidCode = false →
        ∃ message : String,
          handleEditPromptResume s prompt now (.body ok data) =
            { s with toasts := s.toasts ++ [.error message] }) ∧
      (∀ (status : Bool) (m : String), ∃ message : String,
        handleEditPromptResume s prompt now (.invalidBody status m) =
          { s with toasts := s.toasts ++ [.error message] }) ∧
      (∀ m : String, ∃ message : String,
        handleEditPromptResume s prompt now (.networkError m) =
          { s with toasts := s.toasts ++ [.error message] }) := by
  have hcatch : ∀ m : String, ∃ message : String,
      handleEditPromptCatch s m = { s with toasts := s.toasts ++ [.error message] } :=
    fun m => ⟨_, rfl⟩
  refine ⟨?_, ?_, fun _ m => hcatch m, fun m => hcatch m⟩
  · intro B hB hok herr hcode
    subst hok
    have ht : truthy (some B) = true := by simp [truthy, hB]
    simp [handleEditPromptResume, herr, hcode, ht]
  · intro h
    by_cases h1 : (!ok || truthy data.error) = true
    · rw [show handleEditPromptResume s prompt now (.body ok data) =
          handleEditPromptCatch s
            (if truthy data.error then data.error.getD "" else "Failed to edit flowchart") from by
        simp only [handleEditPromptResume, h1, if_true]]
      exact hcatch _
    · have h2 : truthy data.mermaidCode = false := by
        rcases h with h | h | h
        · simp [h] at h1
        · simp [h] at h1
        · exact h
      rw [show handleEditPromptResume s prompt now (.body ok data) =
          handleEditPromptCatch s "No valid flowchart code received" from by
        simp [handleEditPromptResume, h1, h2]]
      exact hcatch _

/-- Witness for C5 amended: source A, instruction "add an error step"; the
response `{ mermaidCode: "B" }` with success status, and a response with a
non-success status whose body is not JSON. -/
theorem edit_flow_outcome_witness :
    handleEditPromptResume (initialApp "A" none) "add an error step" 7
          (.body true ⟨none, some "B", none, none, none⟩) =
        { initialApp "A" none with
          onChangeCalls := (initialApp "A" none).onChangeCalls ++ ["B"]
          lastUpdate := some 7
          storedPrompt := some "add an error step"
          toasts := (initialApp "A" none).toasts ++ [.success "Flowchart updated successfully!"]
          showEditPrompt := false } ∧
      ∃ message : String,
        handleEditPromptResume (initialApp "A" none) "add an error step" 7
            (.invalidBody false "Unexpected token < in JSON at position 0") =
          { initialApp "A" none with
            toasts := (initialApp "A" none).toasts ++ [.error message] } :=
  ⟨(edit_flow_outcome (initialApp "A" none) "add an error step" 7 true
      ⟨none, some "B", none, none, none⟩).1 "B" (by decide) rfl rfl rfl,
    (edit_flow_outcome (initialApp "A" none) "add an error step" 7 true
      ⟨none, some "B", none, none, none⟩).2.2.1 false
      "Unexpected token < in JSON at position 0"⟩

/-- C6, as stated, fails: with the edit dialog open, two instructions submitted
one after the other, before any response has arrived, start two requests of the
edit category; the second `handleEditPrompt` is not a no-op. -/
theorem edit_requests_counterexample :
    pendingCount .edit
        (runApp (initialApp "graph TD" none)
          [.openEditPrompt, .submitEdit "add a step", .submitEdit "add another"]) = 2 ∧
      stepApp
          (runApp (initialApp "graph TD" none) [.openEditPrompt, .submitEdit "add a step"])
          (.submitEdit "add another") ≠
        runApp (initialApp "graph TD" none) [.openEditPrompt, .submitEdit "add a step"] := by
  refine ⟨by decide, by decide⟩

/-- C6, amended. For the categories summary, syntax and pseudocode, whose toolbar
button is disabled while the busy flag of the category is set: in every state
reached from mount by any sequence of interface events and responses, at most
one request of the category is in flight, and while one is in flight a click on
the button of the category changes nothing and starts no request. -/
theorem toolbar_requests_at_most_one (code : String) (stored : Option String)
    (evs : List AppEvent) (c : Category) (click : AppEvent)
    (hclick : toolbarClick c = some click) :
    pendingCount c (runApp (initialApp code stored) evs) ≤ 1 ∧
      (pendingCount c (runApp (initialApp code stored) evs) = 1 →
        stepApp (runApp (initialApp code stored) evs) click =
          runApp (initialApp code stored) evs) := by
  have hinv := runApp_busyMatchesPending evs _ (busyMatchesPending_initial code stored)
  generalize runApp (initialApp code stored) evs = s at hinv ⊢
  have hc : c ≠ .edit := by
    intro h
    subst h
    simp [toolbarClick] at hclick
  have h1 := hinv c hc
  constructor
  · rw [h1]; split_ifs <;> omega
  · intro hone
    have hb : busy c s = true := by
      rw [hone] at h1
      by_contra hne
      simp [hne] at h1
    cases c with
    | edit => exact absurd rfl hc
    | summary =>
      simp only [toolbarClick, Option.some.injEq] at hclick
      subst hclick
      simp only [busy] at hb
      simp [stepApp, hb]
    | mermaid =>
      simp only [toolbarClick, Option.some.injEq] at hclick
      subst hclick
      simp only [busy] at hb
      simp [stepApp, hb]
    | pseudocode =>
      simp only [toolbarClick, Option.some.injEq] at hclick
      subst hclick
      simp only [busy] at hb
      simp [stepApp, hb]

/-- Witness for C6 amended: after a click on the summary button, a second click
while the request is pending leaves one summary request in flight. -/
theorem toolbar_requests_at_most_one_witness :
    pendingCount .summary (runApp (initialApp "graph TD" none) [.clickExplain, .clickExplain])
        ≤ 1 ∧
      (pendingCount .summary
          (runApp (initialApp "graph TD" none) [.clickExplain, .clickExplain]) = 1 →
        stepApp (runApp (initialApp "graph TD" none) [.clickExplain, .clickExplain])
            .clickExplain =
          runApp (initialApp "graph TD" none) [.clickExplain, .clickExplain]) :=
  toolbar_requests_at_most_one "graph TD" none [.clickExplain, .clickExplain] .summary
    .clickExplain rfl

/-! ## Viewport: end of a pan -/

/-- C11. The handler `handleMouseUp` yields an idle state with offset, scale and
drag anchor unchanged; on a state that is already idle it changes nothing; and
applying it twice is the same as applying it once. -/
theorem endPan_idempotent (s : ViewState) :
    (handleMouseUp s).isPanning = false ∧
      (handleMouseUp s).position = s.position ∧
      (handleMouseUp s).scale = s.scale ∧
      (handleMouseUp s).startPan = s.startPan ∧
      (s.isPanning = false → handleMouseUp s = s) ∧
      handleMouseUp (handleMouseUp s) = handleMouseUp s := by
  refine ⟨rfl, rfl, rfl, rfl, fun h => ?_, rfl⟩
  cases s with
  | mk isPanning position startPan scale =>
    simp only at h
    subst h
    rfl

/-- Witness for C11: the end of a pan on an idle state with offset (3, 4),
anchor (7, 16) and scale 2. -/
theorem endPan_idempotent_witness :
    handleMouseUp ⟨false, ⟨3, 4⟩, ⟨7, 16⟩, 2⟩ = ⟨false, ⟨3, 4⟩, ⟨7, 16⟩, 2⟩ :=
  (endPan_idempotent ⟨false, ⟨3, 4⟩, ⟨7, 16⟩, 2⟩).2.2.2.2.1 rfl

/-! ## Render coordination: failure of a pass -/

/-- C12, as stated, fails. A first pass mounts the output of "graph TD; A-->B";
a second pass, for a source that the library rejects, empties the surface before
it calls the library, and after its failure the surface is blank, not the output
that was mounted before the pass. -/
theorem failed_render_blank_counterexample :
    runRender strictRender initialRender [.trigger "graph TD; A-->B" 1 true, .settle 0] =
        { surface := "<svg id=flowchart-1>graph TD; A-->B</svg>"
          inflight := []
          toasts := [] } ∧
      runRender strictRender initialRender
          [.trigger "graph TD; A-->B" 1 true, .settle 0,
            .trigger "grph TD; A-->B" 2 true, .settle 0] =
        { surface := ""
          inflight := []
          toasts := ["Failed to render flowchart"] } := by
  refine ⟨by decide, by decide⟩

/-- C12, amended. A render pass with a non-empty source and an existing wrapper
empties the mounted surface before it calls `mermaid.render`; when the call
fails, the pass writes nothing to the surface and issues the failure
notification. So a pass that fails right after it was issued leaves the surface
blank, and in general the failure of a pass leaves the surface as it was just
before the failure. -/
theorem failed_render_leaves_cleared (render : Nat → String → Except String String)
    (st : RenderState) (code : String) (now : Nat) (message : String)
    (hcode : code ≠ "") (hfail : render now (cleanCode code) = .error message) :
    runRender render st [.trigger code now true, .settle st.inflight.length] =
        { surface := ""
          inflight := st.inflight
          toasts := st.toasts ++ ["Failed to render flowchart"] } ∧
      ∀ (st' : RenderState) (i : Nat) (p : RenderPass) (m : String),
        st'.inflight.get? i = some p → render p.token p.source = .error m →
        stepRender render st' (.settle i) =
          { st' with
            inflight := st'.inflight.eraseIdx i
            toasts := st'.toasts ++ ["Failed to render flowchart"] } := by
  constructor
  · have hget : (st.inflight ++ [(⟨now, cleanCode code⟩ : RenderPass)]).get? st.inflight.length =
        some ⟨now, cleanCode code⟩ := by
      simp
    have herase : (st.inflight ++ [(⟨now, cleanCode code⟩ : RenderPass)]).eraseIdx
        st.inflight.length = st.inflight := by
      rw [List.eraseIdx_append_of_length_le (le_refl _)]
      simp
    simp only [runRender, List.foldl_cons, List.foldl_nil, stepRender, initializeMermaidStart,
      hcode, if_false, Bool.not_true, Bool.false_eq_true, hget, herase, hfail,
      initializeMermaidResume]
  · intro st' i p m hp hr
    simp only [stepRender, hp, hr, initializeMermaidResume]

/-- Witness for C12 amended: a pass for a source that the library rejects,
issued while an output is mounted. -/
theorem failed_render_leaves_cleared_witness :
    runRender strictRender ⟨"<svg>old</svg>", [], []⟩
        [.trigger "grph TD" 2 true,
          .settle (⟨"<svg>old</svg>", [], []⟩ : RenderState).inflight.length] =
      { surface := ""
        inflight := (⟨"<svg>old</svg>", [], []⟩ : RenderState).inflight
        toasts := (⟨"<svg>old</svg>", [], []⟩ : RenderState).toasts ++
          ["Failed to render flowchart"] } :=
  (failed_render_leaves_cleared strictRender ⟨"<svg>old</svg>", [], []⟩ "grph TD" 2
    "Parse error" (by decide) rfl).1

/-! ## Request flow: failures and panels -/

/-- The failures that the three generate functions test for are handled alike:
each goes to the `catch` and `finally` blocks of its function, which report the
failure and clear the busy flag. -/
theorem generate_explicitFailure (s : AppState) (r : Response)
    (h : explicitFailure r = true) :
    generateSummaryResume s r = generateSummaryCatch s ∧
      generateMermaidSyntaxResume s r = generateMermaidSyntaxCatch s ∧
      generatePseudocodeResume s r = generatePseudocodeCatch s := by
  cases r with
  | networkError m => exact ⟨rfl, rfl, rfl⟩
  | invalidBody ok m => exact ⟨rfl, rfl, rfl⟩
  | body ok data =>
    simp only [explicitFailure, Bool.or_eq_true, Bool.not_eq_true'] at h
    simp only [generateSummaryResume, generateMermaidSyntaxResume, generatePseudocodeResume]
    rcases h with h | h
    · subst h
      simp
    · cases ok <;> simp [h]

theorem resumeRequest_atMostOnePanel (s : AppState) (req : Request) (r : Response)
    (now : Nat) (h : AtMostOnePanel s) : AtMostOnePanel (resumeRequest s req r now) := by
  obtain ⟨h1, h2, h3⟩ := h
  obtain ⟨cat, p, cf⟩ := req
  cases cat <;> cases r <;>
    simp only [resumeRequest, handleEditPromptResume, handleEditPromptCatch,
      generateSummaryResume, generateSummaryCatch, generateMermaidSyntaxResume,
      generateMermaidSyntaxCatch, generatePseudocodeResume, generatePseudocodeCatch] <;>
    (try split_ifs) <;> first | exact ⟨h1, h2, h3⟩ | simp [AtMostOnePanel]

theorem stepApp_atMostOnePanel (s : AppState) (ev : AppEvent) (h : AtMostOnePanel s) :
    AtMostOnePanel (stepApp s ev) := by
  obtain ⟨h1, h2, h3⟩ := h
  cases ev with
  | clickExplain =>
    simp only [stepApp, generateSummaryStart]
    split_ifs <;> exact ⟨h1, h2, h3⟩
  | clickViewMermaid =>
    simp only [stepApp, generateMermaidSyntaxStart]
    split_ifs <;> exact ⟨h1, h2, h3⟩
  | clickViewPseudocode =>
    simp only [stepApp, generatePseudocodeStart]
    split_ifs <;> exact ⟨h1, h2, h3⟩
  | openEditPrompt => exact ⟨h1, h2, h3⟩
  | closeEditPrompt => exact ⟨h1, h2, h3⟩
  | submitEdit prompt =>
    simp only [stepApp, handleEditPromptStart]
    split_ifs <;> exact ⟨h1, h2, h3⟩
  | respond i r now =>
    simp only [stepApp]
    split
    · exact ⟨h1, h2, h3⟩
    · exact resumeRequest_atMostOnePanel _ _ r now ⟨h1, h2, h3⟩
  | closeSummary => exact ⟨rfl, rfl, h3⟩
  | closeMermaidSyntax =>
    refine ⟨?_, h2, rfl⟩
    simp [stepApp]
  | closePseudocode =>
    refine ⟨h1, ?_, ?_⟩ <;> simp [stepApp]
  | setCode code => exact ⟨h1, h2, h3⟩

theorem runApp_atMostOnePanel (evs : List AppEvent) (s : AppState)
    (h : AtMostOnePanel s) : AtMostOnePanel (runApp s evs) := by
  induction evs generalizing s with
  | nil => exact h
  | cons ev evs ih => exact ih (stepApp s ev) (stepApp_atMostOnePanel s ev h)

/-- C13. Evaluation at the failing input: a response with success status and an
empty body `{}`, which lacks the expected field, delivered to a pending summary,
syntax or pseudocode request. No failure is reported: the content of the panel
is set to the absent value and the panel is shown. -/
theorem generate_missing_field_evaluation :
    runApp (initialApp "graph TD" none)
        [.clickExplain, .respond 0 (.body true ⟨none, none, none, none, none⟩) 5] =
        { initialApp "graph TD" none with
          summary := none
          keyPoints := none
          showSummary := true } ∧
      runApp (initialApp "graph TD" none)
        [.clickViewMermaid, .respond 0 (.body true ⟨none, none, none, none, none⟩) 5] =
        { initialApp "graph TD" none with
          mermaidSyntax := none
          showMermaidSyntax := true } ∧
      runApp (initialApp "graph TD" none)
        [.clickViewPseudocode, .respond 0 (.body true ⟨none, none, none, none, none⟩) 5] =
        { initialApp "graph TD" none with
          pseudocode := none
          showPseudocode := true } := by
  refine ⟨by decide, by decide, by decide⟩

/-- C14. A successful summary, syntax or pseudocode request (success status, no
truthy `error`) sets the content of its panel and shows that panel alone; and in
every state reached from mount by any sequence of interface events and
responses, successful or failed, no two of the three panels are shown. -/
theorem panels_mutually_exclusive (code : String) (stored : Option String)
    (evs : List AppEvent) (s : AppState) (data : Payload)
    (herr : truthy data.error = false) :
    AtMostOnePanel (runApp (initialApp code stored) evs) ∧
      generateSummaryResume s (.body true data) =
        { s with
          summary := data.summary
          keyPoints := data.keyPoints
          showSummary := true
          showMermaidSyntax := false
          showPseudocode := false
          summaryLoading := false } ∧
      generateMermaidSyntaxResume s (.body true data) =
        { s with
          mermaidSyntax := data.mermaidCode
          showMermaidSyntax := true
          showSummary := false
          showPseudocode := false
          syntaxLoading := false } ∧
      generatePseudocodeResume s (.body true data) =
        { s with
          pseudocode := data.pseudocode
          showPseudocode := true
          showSummary := false
          showMermaidSyntax := false
          pseudocodeLoading := false } := by
  refine ⟨runApp_atMostOnePanel evs _ ⟨rfl, rfl, rfl⟩, ?_, ?_, ?_⟩
  · simp [generateSummaryResume, herr]
  · simp [generateMermaidSyntaxResume, herr]
  · simp [generatePseudocodeResume, herr]

/-- Witness for C14: a summary arrives, then the syntax panel is requested and
its response arrives. -/
theorem panels_mutually_exclusive_witness :
    AtMostOnePanel
      (runApp (initialApp "graph TD" none)
        [.clickExplain, .respond 0 (.body true ⟨none, none, some "S", some [], none⟩) 1,
          .clickViewMermaid,
          .respond 0 (.body true ⟨none, some "graph TD", none, none, none⟩) 2]) :=
  (panels_mutually_exclusive "graph TD" none
    [.clickExplain, .respond 0 (.body true ⟨none, none, some "S", some [], none⟩) 1,
      .clickViewMermaid, .respond 0 (.body true ⟨none, some "graph TD", none, none, none⟩) 2]
    (initialApp "graph TD" none) ⟨none, some "graph TD", none, none, none⟩ rfl).1

/-! ## Sanitization: lemmas -/

theorem removeMatches_cons_of_zero (m : List Char → Nat) (c : Char) (cs : List Char)
    (h : m (c :: cs) = 0) :
    removeMatches m 0 (c :: cs) = c :: removeMatches m 0 cs := by
  rw [removeMatches, h]

theorem removeMatches_skip (m : List Char → Nat) (k : Nat) (c : Char) (cs : List Char) :
    removeMatches m (k + 1) (c :: cs) = removeMatches m k cs := by
  rw [removeMatches]

theorem fence_prefix_iff (l : List Char) :
    fence <+: l ↔ ∃ t, l = backtick :: backtick :: backtick :: t := by
  constructor
  · rintro ⟨t, rfl⟩
    exact ⟨t, rfl⟩
  · rintro ⟨t, rfl⟩
    exact ⟨t, rfl⟩

theorem matchFence_of_prefix (t : List Char) :
    matchFence (backtick :: backtick :: backtick :: t) = 3 := by
  have h : fence.isPrefixOf (backtick :: backtick :: backtick :: t) = true :=
    List.isPrefixOf_iff_prefix.mpr ((fence_prefix_iff _).mpr ⟨t, rfl⟩)
  simp only [matchFence, h, if_true]
  rfl

theorem matchFence_eq_zero (l : List Char) (h : ¬ fence <+: l) : matchFence l = 0 := by
  have h' : fence.isPrefixOf l = false := by
    rw [Bool.eq_false_iff]
    intro hp
    exact h (List.isPrefixOf_iff_prefix.mp hp)
  simp [matchFence, h']

theorem matchFenceMermaid_eq_zero (l : List Char) (h : ¬ fence <+: l) :
    matchFenceMermaid l = 0 := by
  have h' : fenceMermaid.isPrefixOf l = false := by
    rw [Bool.eq_false_iff]
    intro hp
    exact h ((List.prefix_append fence _).trans (List.isPrefixOf_iff_prefix.mp hp))
  simp [matchFenceMermaid, h']

theorem removeMatches_fence_cons (t : List Char) :
    removeMatches matchFence 0 (backtick :: backtick :: backtick :: t) =
      removeMatches matchFence 0 t := by
  rw [removeMatches, matchFence_of_prefix]
  simp only [removeMatches_skip]

theorem removeMatches_fence_head (l : List Char) (h : l.head? ≠ some backtick) :
    (removeMatches matchFence 0 l).head? ≠ some backtick := by
  cases l with
  | nil => simp [removeMatches]
  | cons c cs =>
    have hc : c ≠ backtick := by
      intro hc
      exact h (by simp [hc])
    have hp : ¬ fence <+: c :: cs := by
      rw [fence_prefix_iff]
      rintro ⟨t, ht⟩
      exact hc (List.cons.inj ht).1
    rw [removeMatches_cons_of_zero _ _ _ (matchFence_eq_zero _ hp)]
    simpa using hc

theorem not_fence_prefix_cons_removeMatches (c : Char) (cs : List Char)
    (hp : ¬ fence <+: c :: cs) : ¬ fence <+: c :: removeMatches matchFence 0 cs := by
  intro hq
  obtain ⟨t, h0⟩ := (fence_prefix_iff _).mp hq
  obtain ⟨hc, h1⟩ := List.cons.inj h0
  clear h0 hq
  subst hc
  cases cs with
  | nil => simp [removeMatches] at h1
  | cons x cs' =>
    by_cases hx : fence <+: x :: cs'
    · obtain ⟨u, hu⟩ := (fence_prefix_iff _).mp hx
      exact hp ((fence_prefix_iff _).mpr ⟨backtick :: u, by rw [hu]⟩)
    · rw [removeMatches_cons_of_zero _ _ _ (matchFence_eq_zero _ hx)] at h1
      obtain ⟨hxb, h2⟩ := List.cons.inj h1
      clear h1
      subst hxb
      have hhead : (removeMatches matchFence 0 cs').head? = some backtick := by
        rw [h2]; rfl
      have hcs : cs'.head? = some backtick := by
        by_contra hne
        exact removeMatches_fence_head cs' hne hhead
      cases cs' with
      | nil => simp at hcs
      | cons y cs'' =>
        simp only [List.head?_cons, Option.some.injEq] at hcs
        subst hcs
        exact hp ((fence_prefix_iff _).mpr ⟨cs'', rfl⟩)

theorem removeMatches_fence_noFence_aux :
    ∀ (n : Nat) (l : List Char), l.length ≤ n → ¬ fence <:+: removeMatches matchFence 0 l := by
  intro n
  induction n with
  | zero =>
    intro l hl
    have : l = [] := List.length_eq_zero.mp (Nat.le_zero.mp hl)
    subst this
    simp [removeMatches, fence]
  | succ n ih =>
    intro l hl
    cases l with
    | nil => simp [removeMatches, fence]
    | cons c cs =>
      by_cases hp : fence <+: c :: cs
      · obtain ⟨t, ht⟩ := (fence_prefix_iff _).mp hp
        rw [ht, removeMatches_fence_cons]
        apply ih
        have : (c :: cs).length = t.length + 3 := by rw [ht]; rfl
        omega
      · rw [removeMatches_cons_of_zero _ _ _ (matchFence_eq_zero _ hp),
          List.infix_cons_iff]
        rintro (h | h)
        · exact not_fence_prefix_cons_removeMatches c cs hp h
        · exact ih cs (by simpa using hl) h

theorem removeMatches_fence_noFence (l : List Char) :
    ¬ fence <:+: removeMatches matchFence 0 l :=
  removeMatches_fence_noFence_aux l.length l (le_refl _)

theorem removeMatches_of_noFence (m : List Char → Nat)
    (hm : ∀ l, ¬ fence <+: l → m l = 0) :
    ∀ l : List Char, ¬ fence <:+: l → removeMatches m 0 l = l := by
  intro l
  induction l with
  | nil => intro _; rfl
  | cons c cs ih =>
    intro h
    rw [List.infix_cons_iff] at h
    push_neg at h
    rw [removeMatches_cons_of_zero _ _ _ (hm _ h.1), ih h.2]

theorem jsTrim_eq (l : List Char) :
    jsTrim l = (l.dropWhile isJsWhitespace).rdropWhile isJsWhitespace := rfl

theorem jsTrim_infix_self (l : List Char) : jsTrim l <:+: l :=
  (List.rdropWhile_prefix isJsWhitespace _).isInfix.trans
    (List.dropWhile_suffix isJsWhitespace).isInfix

theorem dropWhile_of_prefix_of_fixed (p : Char → Bool) (r d : List Char) (hpre : r <+: d)
    (hd : d.dropWhile p = d) : r.dropWhile p = r := by
  cases r with
  | nil => rfl
  | cons a r' =>
    obtain ⟨t, rfl⟩ := hpre
    by_cases ha : p a = true
    · exfalso
      have hlen := (List.dropWhile_suffix p (l := r' ++ t)).length_le
      have : (List.dropWhile p (a :: r' ++ t)) = List.dropWhile p (r' ++ t) := by
        simp [List.dropWhile_cons, ha]
      rw [this] at hd
      rw [hd] at hlen
      simp at hlen
    · simp [List.dropWhile_cons, ha]

theorem jsTrim_idempotent (l : List Char) : jsTrim (jsTrim l) = jsTrim l := by
  rw [jsTrim_eq (jsTrim l), jsTrim_eq l]
  rw [dropWhile_of_prefix_of_fixed isJsWhitespace _ _ (List.rdropWhile_prefix isJsWhitespace _)
    (List.dropWhile_idempotent isJsWhitespace l)]
  exact List.rdropWhile_idempotent _ _

theorem removeMatches_append_of_no_backtick (m : List Char → Nat)
    (hm : ∀ l, ¬ fence <+: l → m l = 0) (pre suf : List Char) (hpre : backtick ∉ pre) :
    removeMatches m 0 (pre ++ suf) = pre ++ removeMatches m 0 suf := by
  induction pre with
  | nil => rfl
  | cons c cs ih =>
    have hc : c ≠ backtick := fun h => hpre (by simp [h])
    have hcs : backtick ∉ cs := fun h => hpre (List.mem_cons_of_mem _ h)
    have hp : ¬ fence <+: c :: (cs ++ suf) := by
      rw [fence_prefix_iff]
      rintro ⟨t, ht⟩
      exact hc (List.cons.inj ht).1
    rw [List.cons_append, removeMatches_cons_of_zero _ _ _ (hm _ hp), ih hcs]
    rfl

theorem matchFenceMermaid_of_marker (t : List Char) :
    matchFenceMermaid
        (backtick :: backtick :: backtick :: 'm' :: 'e' :: 'r' :: 'm' :: 'a' :: 'i' :: 'd' ::
          '\n' :: t) = 11 := by
  have h : fenceMermaid.isPrefixOf
      (backtick :: backtick :: backtick :: 'm' :: 'e' :: 'r' :: 'm' :: 'a' :: 'i' :: 'd' ::
        '\n' :: t) = true :=
    List.isPrefixOf_iff_prefix.mpr ⟨'\n' :: t, rfl⟩
  rw [matchFenceMermaid, h]
  rfl

theorem removeMatches_marker (t : List Char) :
    removeMatches matchFenceMermaid 0
        (backtick :: backtick :: backtick :: 'm' :: 'e' :: 'r' :: 'm' :: 'a' :: 'i' :: 'd' ::
          '\n' :: t) = removeMatches matchFenceMermaid 0 t := by
  rw [removeMatches, matchFenceMermaid_of_marker]
  simp only [removeMatches_skip]

theorem matchFenceMermaid_fence_newline (t : List Char) :
    matchFenceMermaid (backtick :: backtick :: backtick :: '\n' :: t) = 0 := by
  have h : fenceMermaid.isPrefixOf (backtick :: backtick :: backtick :: '\n' :: t) = false := by
    rw [Bool.eq_false_iff]
    intro hp
    obtain ⟨u, hu⟩ := List.isPrefixOf_iff_prefix.mp hp
    have h4 := (List.cons.inj (List.cons.inj (List.cons.inj (List.cons.inj hu).2).2).2).1
    exact absurd h4 (by decide)
  simp [matchFenceMermaid, h]

theorem removeMatches_mermaid_fence_newline (t : List Char) :
    removeMatches matchFenceMermaid 0 (backtick :: backtick :: backtick :: '\n' :: t) =
      backtick :: backtick :: backtick :: '\n' :: removeMatches matchFenceMermaid 0 t := by
  have h2 : ¬ fence <+: backtick :: backtick :: '\n' :: t := by
    rw [fence_prefix_iff]
    rintro ⟨u, hu⟩
    exact absurd (List.cons.inj (List.cons.inj (List.cons.inj hu).2).2).1 (by decide)
  have h3 : ¬ fence <+: backtick :: '\n' :: t := by
    rw [fence_prefix_iff]
    rintro ⟨u, hu⟩
    exact absurd (List.cons.inj (List.cons.inj hu).2).1 (by decide)
  have h4 : ¬ fence <+: '\n' :: t := by
    rw [fence_prefix_iff]
    rintro ⟨u, hu⟩
    exact absurd (List.cons.inj hu).1 (by decide)
  rw [removeMatches_cons_of_zero _ _ _ (matchFenceMermaid_fence_newline t),
    removeMatches_cons_of_zero _ _ _ (matchFenceMermaid_eq_zero _ h2),
    removeMatches_cons_of_zero _ _ _ (matchFenceMermaid_eq_zero _ h3),
    removeMatches_cons_of_zero _ _ _ (matchFenceMermaid_eq_zero _ h4)]

theorem removeMatches_fence_newline (t : List Char) :
    removeMatches matchFence 0 ('\n' :: t) = '\n' :: removeMatches matchFence 0 t := by
  have h4 : ¬ fence <+: '\n' :: t := by
    rw [fence_prefix_iff]
    rintro ⟨u, hu⟩
    exact absurd (List.cons.inj hu).1 (by decide)
  rw [removeMatches_cons_of_zero _ _ _ (matchFence_eq_zero _ h4)]

theorem dropWhile_rdropWhile_concat (p : Char → Bool) (a : Char) (ha : p a = true) :
    ∀ l : List Char,
      ((l ++ [a]).dropWhile p).rdropWhile p = (l.dropWhile p).rdropWhile p := by
  intro l
  induction l with
  | nil => simp [List.dropWhile_cons, ha]
  | cons c cs ih =>
    by_cases hc : p c = true
    · simpa [List.dropWhile_cons, hc] using ih
    · have h1 : ((c :: cs) ++ [a]).dropWhile p = (c :: cs) ++ [a] := by
        simp [List.dropWhile_cons, hc]
      have h2 : (c :: cs).dropWhile p = c :: cs := by
        simp [List.dropWhile_cons, hc]
      rw [h1, h2, List.rdropWhile_concat_pos _ _ _ ha]

theorem jsTrim_concat_newline (l : List Char) : jsTrim (l ++ ['\n']) = jsTrim l := by
  rw [jsTrim_eq, jsTrim_eq]
  exact dropWhile_rdropWhile_concat isJsWhitespace '\n' (by decide) l

theorem jsTrim_cons_newline (l : List Char) : jsTrim ('\n' :: l) = jsTrim l := by
  rw [jsTrim_eq, jsTrim_eq]
  have h : isJsWhitespace '\n' = true := by decide
  simp [List.dropWhile_cons, h]

theorem cleanList_fenced_mermaid (body : List Char) (h : backtick ∉ body) :
    jsTrim (removeMatches matchFence 0 (removeMatches matchFenceMermaid 0
      (backtick :: backtick :: backtick :: 'm' :: 'e' :: 'r' :: 'm' :: 'a' :: 'i' :: 'd' ::
        '\n' :: (body ++ ['\n', backtick, backtick, backtick])))) = jsTrim body := by
  rw [removeMatches_marker,
    removeMatches_append_of_no_backtick _ matchFenceMermaid_eq_zero _ _ h,
    show removeMatches matchFenceMermaid 0 ['\n', backtick, backtick, backtick] =
      ['\n', backtick, backtick, backtick] from by decide,
    removeMatches_append_of_no_backtick _ matchFence_eq_zero _ _ h,
    show removeMatches matchFence 0 ['\n', backtick, backtick, backtick] = ['\n'] from by decide,
    jsTrim_concat_newline]

theorem cleanList_fenced_plain (body : List Char) (h : backtick ∉ body) :
    jsTrim (removeMatches matchFence 0 (removeMatches matchFenceMermaid 0
      (backtick :: backtick :: backtick :: '\n' ::
        (body ++ ['\n', backtick, backtick, backtick])))) = jsTrim body := by
  rw [removeMatches_mermaid_fence_newline,
    removeMatches_append_of_no_backtick _ matchFenceMermaid_eq_zero _ _ h,
    show removeMatches matchFenceMermaid 0 ['\n', backtick, backtick, backtick] =
      ['\n', backtick, backtick, backtick] from by decide,
    removeMatches_fence_cons, removeMatches_fence_newline,
    removeMatches_append_of_no_backtick _ matchFence_eq_zero _ _ h,
    show removeMatches matchFence 0 ['\n', backtick, backtick, backtick] = ['\n'] from by decide,
    jsTrim_cons_newline, jsTrim_concat_newline]

theorem cleanList_unfenced (body : List Char) (h : backtick ∉ body) :
    jsTrim (removeMatches matchFence 0 (removeMatches matchFenceMermaid 0 body)) =
      jsTrim body := by
  have h1 := removeMatches_append_of_no_backtick _ matchFenceMermaid_eq_zero body [] h
  have h2 := removeMatches_append_of_no_backtick _ matchFence_eq_zero body [] h
  simp only [List.append_nil, removeMatches] at h1 h2
  rw [h1, h2]

/-! ## Sanitization: claims -/

/-- C15. For every body without a backtick, the cleaned source of the body
fenced as mermaid code, of the body fenced as plain code, and of the body alone
are all the body trimmed. -/
theorem cleanCode_strips_fences (body : String) (h : backtick ∉ body.data) :
    cleanCode ("```mermaid\n" ++ body ++ "\n```") = trim body ∧
      cleanCode ("```\n" ++ body ++ "\n```") = trim body ∧
      cleanCode body = trim body := by
  refine ⟨?_, ?_, ?_⟩
  · exact congrArg String.mk (by
      simp only [String.data_append]
      exact cleanList_fenced_mermaid body.data h)
  · exact congrArg String.mk (by
      simp only [String.data_append]
      exact cleanList_fenced_plain body.data h)
  · exact congrArg String.mk (cleanList_unfenced body.data h)

/-- Witness for C15: a two-line diagram with surrounding blanks. -/
theorem cleanCode_strips_fences_witness :
    cleanCode ("```mermaid\n" ++ " graph TD\n  A-->B " ++ "\n```") = trim " graph TD\n  A-->B " ∧
      cleanCode ("```\n" ++ " graph TD\n  A-->B " ++ "\n```") = trim " graph TD\n  A-->B " ∧
      cleanCode " graph TD\n  A-->B " = trim " graph TD\n  A-->B " :=
  cleanCode_strips_fences " graph TD\n  A-->B " (by decide)

/-- C16. For every source, the cleaned text contains no three consecutive
backticks, and cleaning a cleaned text returns it unchanged. -/
theorem cleanCode_no_fence (code : String) :
    ¬ fence <:+: (cleanCode code).data ∧ cleanCode (cleanCode code) = cleanCode code := by
  have h1 : ¬ fence <:+: (cleanCode code).data := fun h =>
    removeMatches_fence_noFence _ (h.trans (jsTrim_infix_self _))
  refine ⟨h1, ?_⟩
  have h2 := removeMatches_of_noFence _ matchFenceMermaid_eq_zero _ h1
  have h3 := removeMatches_of_noFence _ matchFence_eq_zero _ h1
  show (⟨jsTrim (removeMatches matchFence 0
      (removeMatches matchFenceMermaid 0 (cleanCode code).data))⟩ : String) = cleanCode code
  rw [h2, h3]
  exact congrArg String.mk (jsTrim_idempotent _)

end FlowchartViewer
